import Mathlib

/-!
Shallow embedding of the client-side statement-analysis flow of the
repository (frontend/app of the demo app).

The file models the two StatementAnalysis component implementations found in
frontend/app/components/StatementAnalysis.tsx:

* namespace SA1 — the first implementation (lines 1276-1443): view values
  such as "phonepe-analysis" / "kotak-analysis", a form field named
  "platform", alert-based error reporting, and the renderCurrentView
  dispatcher.
* namespace SA2 — the second implementation (lines 1451-1608): view values
  "home" / "kotak" / "phonepe", a form field named "bank", an errorMessage
  state, resetState and handleViewChange.

State updates and effects (React setState calls, fetch, alert) are modelled
as explicit event lists; a component operation denotes the ordered list of
events its handler performs, and running those events over a component state
record gives the final state.  The backend is out of scope, so the outcome
of the single fetch call is an explicit parameter (ok body / HTTP error with
an optional detail field / a thrown error message).
-/

/-- A DOM File object, reduced to the fields the code reads. -/
structure JsFile where
  name : String
  type : String
deriving DecidableEq

/-- A value appended to a FormData object: either a file or a string. -/
inductive FormVal
  | file (f : JsFile)
  | str (s : String)
deriving DecidableEq

/-- JavaScript or-with-fallback on a string: the empty string is falsy. -/
def jsOrStr (s fallback : String) : String :=
  if s = "" then fallback else s

/-- JavaScript or-with-fallback on an optional field access: a missing field
and the empty string are both falsy. -/
def jsOr (d : Option String) (fallback : String) : String :=
  match d with
  | some s => jsOrStr s fallback
  | none => fallback

/-- String.replace with the regular expression of one trailing slash:
backendUrl.replace of a trailing slash with the empty string. -/
def stripTrailingSlash (s : String) : String :=
  if s.endsWith "/" then s.dropRight 1 else s

namespace Analysis

/-- Transaction, from frontend/app/types/analysis.ts. -/
structure Transaction where
  date : String
  description : String
  amount : Int
  type : String
  category : Option String
deriving DecidableEq

/-- Summary, from frontend/app/types/analysis.ts. -/
structure Summary where
  totalReceived : Int
  totalSpent : Int
  balance : Int
  creditCount : Nat
  debitCount : Nat
  highestCredit : Option Int
  highestDebit : Option Int
deriving DecidableEq

/-- DetailedCategory, from frontend/app/types/analysis.ts. -/
structure DetailedCategory where
  category : String
  amount : Int
  count : Nat
  percentage : String
  transactions : List Transaction
deriving DecidableEq

/-- AnalysisResult, from frontend/app/types/analysis.ts. -/
structure AnalysisResult where
  summary : Summary
  transactions : List Transaction
  detailedCategoryBreakdown : List DetailedCategory
  pageCount : Option Nat
deriving DecidableEq

end Analysis

namespace SA1

/-- Transaction type local to the first StatementAnalysis implementation. -/
structure Transaction where
  date : String
  amount : Int
  description : String
  category : String
  icon : Option String
deriving DecidableEq

/-- The summary object of the first implementation's AnalysisResult. -/
structure Summary where
  totalReceived : Int
  totalSpent : Int
  balance : Int
  creditCount : Nat
  debitCount : Nat
  totalTransactions : Nat
deriving DecidableEq

/-- DetailedCategory of the first implementation. -/
structure DetailedCategory where
  category : String
  amount : Int
  count : Nat
  percentage : Int
  transactions : List Transaction
deriving DecidableEq

/-- AnalysisResult of the first implementation. -/
structure AnalysisResult where
  transactions : List Transaction
  summary : Summary
  detailedCategoryBreakdown : List DetailedCategory
  pageCount : Nat
deriving DecidableEq

/-- Component state of the first StatementAnalysis implementation (the
useState hooks the analysis flow touches). -/
structure State where
  currentView : String
  selectedFile : Option JsFile
  analysisState : String
  analysisResults : Option AnalysisResult
deriving DecidableEq

/-- One primitive effect performed by a handler of the first
implementation: a setState call, the fetch call, or an alert. -/
inductive Event
  | setCurrentView (v : String)
  | setSelectedFile (f : Option JsFile)
  | setAnalysisState (st : String)
  | setAnalysisResults (r : Option AnalysisResult)
  | fetch (method : String) (url : String) (form : List (String × FormVal))
  | alert (msg : String)
deriving DecidableEq

/-- Effect of one event on the component state; fetch and alert do not
change the state. -/
def apply (s : State) : Event → State
  | .setCurrentView v => { s with currentView := v }
  | .setSelectedFile f => { s with selectedFile := f }
  | .setAnalysisState st => { s with analysisState := st }
  | .setAnalysisResults r => { s with analysisResults := r }
  | .fetch _ _ _ => s
  | .alert _ => s

/-- Run a list of events over a state. -/
def runEvents (s : State) (es : List Event) : State :=
  es.foldl apply s

/-- The states passed through while a list of events runs, the initial
state included. -/
def microStates (s : State) (es : List Event) : List State :=
  es.scanl apply s

/-- Number of fetch events in an event list. -/
def fetchCount (es : List Event) : Nat :=
  es.countP fun e =>
    match e with
    | .fetch _ _ _ => true
    | _ => false

/-- Observable outcome of the await fetch / await response.json pair:
an ok response with a parsed body, a non-ok response with its status and
the optional detail field of the parsed error payload, or a rejection
(network or JSON parse failure) carrying the error message. -/
inductive FetchOutcome
  | ok (body : AnalysisResult)
  | httpError (status : Nat) (detail : Option String)
  | thrown (msg : String)
deriving DecidableEq

/-- The platform discriminator computed by analyzeStatement from the
current view: phonepe for the PhonePe view, kotak for the Kotak view, and
the fallback phonepe otherwise. -/
def platformOf (currentView : String) : String :=
  if currentView = "phonepe-analysis" then "phonepe"
  else if currentView = "kotak-analysis" then "kotak"
  else "phonepe"

/-- The URL analyzeStatement posts to: the configured backend URL (or the
localhost default) with one trailing slash stripped, plus /analyze. -/
def analyzeUrl (apiUrl : Option String) : String :=
  stripTrailingSlash (apiUrl.getD "http://localhost:8000") ++ "/analyze"

/-- Event trace of analyzeStatement of the first implementation:
set analyzing, POST the form, then either store the results and set
results, or alert with the detail-derived message and set upload. -/
def analyzeStatement (apiUrl : Option String) (currentView : String)
    (file : JsFile) (outcome : FetchOutcome) : List Event :=
  [.setAnalysisState "analyzing",
   .fetch "POST" (analyzeUrl apiUrl)
     [("file", .file file), ("platform", .str (platformOf currentView))]] ++
  match outcome with
  | .ok results => [.setAnalysisResults (some results), .setAnalysisState "results"]
  | .httpError _ detail =>
      [.alert ("Analysis failed: " ++ jsOr detail "Failed to analyze statement"),
       .setAnalysisState "upload"]
  | .thrown msg =>
      [.alert ("Analysis failed: " ++ msg),
       .setAnalysisState "upload"]

/-- Event trace of handleFileSelect of the first implementation: a present
PDF file is stored and analyzed; anything else alerts and sets upload. -/
def handleFileSelect (apiUrl : Option String) (currentView : String)
    (file : Option JsFile) (outcome : FetchOutcome) : List Event :=
  match file with
  | some f =>
      if f.type = "application/pdf" then
        .setSelectedFile (some f) :: analyzeStatement apiUrl currentView f outcome
      else
        [.alert "Please select a valid PDF file", .setAnalysisState "upload"]
  | none => [.alert "Please select a valid PDF file", .setAnalysisState "upload"]

/-- Event trace of handleDrop of the first implementation: same shape as
handleFileSelect with the drop alert message. -/
def handleDrop (apiUrl : Option String) (currentView : String)
    (file : Option JsFile) (outcome : FetchOutcome) : List Event :=
  match file with
  | some f =>
      if f.type = "application/pdf" then
        .setSelectedFile (some f) :: analyzeStatement apiUrl currentView f outcome
      else
        [.alert "Please drop a valid PDF file", .setAnalysisState "upload"]
  | none => [.alert "Please drop a valid PDF file", .setAnalysisState "upload"]

/-- The screen component renderCurrentView returns. -/
inductive Screen
  | home
  | phonePeAnalysis
  | kotakAnalysis
  | moreUpiApps
  | banks
  | settings
  | accountSettings
  | referAndEarn
  | upiApps
deriving DecidableEq

/-- renderCurrentView of the first implementation: the switch over
currentView, with the default case rendering HomeView. -/
def renderCurrentView (currentView : String) : Screen :=
  if currentView = "home" then .home
  else if currentView = "phonepe-analysis" then .phonePeAnalysis
  else if currentView = "kotak-analysis" then .kotakAnalysis
  else if currentView = "more-upi-apps" then .moreUpiApps
  else if currentView = "more-banks" then .banks
  else if currentView = "settings" then .settings
  else if currentView = "account-settings" then .accountSettings
  else if currentView = "refer-and-and-earn" then .referAndEarn
  else if currentView = "banks" then .banks
  else if currentView = "upi-apps" then .upiApps
  else .home

/-- The view values renderCurrentView has an explicit case for. -/
def handledViews : List String :=
  ["home", "phonepe-analysis", "kotak-analysis", "more-upi-apps", "more-banks",
   "settings", "account-settings", "refer-and-and-earn", "banks", "upi-apps"]

end SA1

namespace SA2

/-- Component state of the second StatementAnalysis implementation. -/
structure State where
  currentView : String
  selectedFile : Option JsFile
  analysisState : String
  analysisResults : Option Analysis.AnalysisResult
  errorMessage : Option String
deriving DecidableEq

/-- One primitive effect performed by a handler of the second
implementation. -/
inductive Event
  | setCurrentView (v : String)
  | setSelectedFile (f : Option JsFile)
  | setAnalysisState (st : String)
  | setAnalysisResults (r : Option Analysis.AnalysisResult)
  | setErrorMessage (m : Option String)
  | fetch (method : String) (url : String) (form : List (String × FormVal))
deriving DecidableEq

/-- Effect of one event on the component state; fetch does not change the
state. -/
def apply (s : State) : Event → State
  | .setCurrentView v => { s with currentView := v }
  | .setSelectedFile f => { s with selectedFile := f }
  | .setAnalysisState st => { s with analysisState := st }
  | .setAnalysisResults r => { s with analysisResults := r }
  | .setErrorMessage m => { s with errorMessage := m }
  | .fetch _ _ _ => s

/-- Run a list of events over a state. -/
def runEvents (s : State) (es : List Event) : State :=
  es.foldl apply s

/-- The states passed through while a list of events runs, the initial
state included. -/
def microStates (s : State) (es : List Event) : List State :=
  es.scanl apply s

/-- Number of fetch events in an event list. -/
def fetchCount (es : List Event) : Nat :=
  es.countP fun e =>
    match e with
    | .fetch _ _ _ => true
    | _ => false

/-- Observable outcome of the await fetch / await response.json pair in the
second implementation. -/
inductive FetchOutcome
  | ok (body : Analysis.AnalysisResult)
  | httpError (status : Nat) (detail : Option String)
  | thrown (msg : String)
deriving DecidableEq

/-- The URL analyzeStatement of the second implementation posts to: the
configured backend URL (or the hosted default), plus /analyze. -/
def analyzeUrl (apiUrl : Option String) : String :=
  apiUrl.getD "https://demo-bl6p.onrender.com" ++ "/analyze"

/-- Event trace of analyzeStatement of the second implementation: set
analyzing and clear the error, POST the form with fields file and bank,
then either store the results and set results, or store the error message
and set upload. -/
def analyzeStatement (apiUrl : Option String) (file : JsFile) (bank : String)
    (outcome : FetchOutcome) : List Event :=
  [.setAnalysisState "analyzing", .setErrorMessage none,
   .fetch "POST" (analyzeUrl apiUrl)
     [("file", .file file), ("bank", .str bank)]] ++
  match outcome with
  | .ok data => [.setAnalysisResults (some data), .setAnalysisState "results"]
  | .httpError status detail =>
      [.setErrorMessage (some (jsOrStr
         (jsOr detail ("HTTP error! status: " ++ toString status))
         "An unknown error occurred during analysis.")),
       .setAnalysisState "upload"]
  | .thrown msg =>
      [.setErrorMessage (some (jsOrStr msg
         "An unknown error occurred during analysis.")),
       .setAnalysisState "upload"]

/-- The event trace of resetState: clear the file, set upload, clear the
results and the error message (clearing the file input ref is a DOM
effect with no counterpart in the state record). -/
def resetStateEvents : List Event :=
  [.setSelectedFile none, .setAnalysisState "upload",
   .setAnalysisResults none, .setErrorMessage none]

/-- A handler invocation of the second implementation, with the data the
environment supplies to it (the file of the input or drop event, and the
outcome of the fetch it may trigger). -/
inductive Op
  | viewChange (v : String)
  | fileSelect (file : Option JsFile) (outcome : FetchOutcome)
  | drop (file : Option JsFile) (outcome : FetchOutcome)
  | dismissError
deriving DecidableEq

/-- Event trace of one handler invocation: handleViewChange runs resetState
then sets the view; handleFileSelect and handleDrop store and analyze the
file only when one is present and the current view is kotak or phonepe;
the Dismiss button of the error box clears the error message. -/
def opEvents (apiUrl : Option String) (s : State) : Op → List Event
  | .viewChange v => resetStateEvents ++ [.setCurrentView v]
  | .fileSelect file outcome =>
      match file with
      | some f =>
          if s.currentView = "kotak" ∨ s.currentView = "phonepe" then
            .setSelectedFile (some f) ::
              analyzeStatement apiUrl f s.currentView outcome
          else []
      | none => []
  | .drop file outcome =>
      match file with
      | some f =>
          if s.currentView = "kotak" ∨ s.currentView = "phonepe" then
            .setSelectedFile (some f) ::
              analyzeStatement apiUrl f s.currentView outcome
          else []
      | none => []
  | .dismissError => [.setErrorMessage none]

/-- The initial component state of the second implementation. -/
def init : State :=
  { currentView := "home", selectedFile := none, analysisState := "upload",
    analysisResults := none, errorMessage := none }

/-- Reachable component states: the initial state, and every state reached
by running any number of the events of a handler invocation from a
reachable state (so the states inside a handler run are reachable too). -/
inductive Reachable (apiUrl : Option String) : State → Prop
  | init : Reachable apiUrl init
  | step (s : State) (op : Op) (n : Nat) : Reachable apiUrl s →
      Reachable apiUrl (runEvents s ((opEvents apiUrl s op).take n))

end SA2

namespace SA1

/-- The summary numbers the Transaction Summary card of the first
implementation's ResultsView displays, read off the JSX. -/
structure DisplayedSummary where
  totalCRDR : Int
  crAmount : Int
  crCount : Nat
  drAmount : Int
  drCount : Nat
  totalTransactions : Nat
deriving DecidableEq

/-- The Transaction Summary card of the first implementation's ResultsView:
balance, totalReceived with creditCount, the absolute value of totalSpent
with debitCount, and totalTransactions, all from the summary object. -/
def resultsViewSummary (r : AnalysisResult) : DisplayedSummary :=
  { totalCRDR := r.summary.balance,
    crAmount := r.summary.totalReceived,
    crCount := r.summary.creditCount,
    drAmount := |r.summary.totalSpent|,
    drCount := r.summary.debitCount,
    totalTransactions := r.summary.totalTransactions }

end SA1

namespace ResultsView2

/-- The summary numbers the Transaction Summary card of the shared
ResultsView (the component exported next to UPIAppGrid) displays. -/
structure DisplayedSummary where
  moneyInCount : Nat
  moneyInAmount : Int
  moneyOutCount : Nat
  moneyOutAmount : Int
  highestCredit : Option Int
  highestDebit : Option Int
  netBalance : Int
deriving DecidableEq

/-- The number the HighestTransaction helper renders: the amount is put
through a JS truthiness test, so a missing or zero amount is falsy and
renders as the string N/A (modelled as none); otherwise its absolute value
is shown. -/
def highestTransactionShown (amount : Option Int) : Option Int :=
  match amount with
  | some a => if a = 0 then none else some |a|
  | none => none

/-- The Transaction Summary card of the shared ResultsView: the SummaryRow
helpers display the absolute values of totalReceived and totalSpent with
creditCount and debitCount, the HighestTransaction helpers display
highestCredit and highestDebit as absolute values with falsy amounts as
N/A, and the Net Balance row displays balance, all from the summary
object. -/
def resultsViewSummary (r : Analysis.AnalysisResult) : DisplayedSummary :=
  { moneyInCount := r.summary.creditCount,
    moneyInAmount := |r.summary.totalReceived|,
    moneyOutCount := r.summary.debitCount,
    moneyOutAmount := |r.summary.totalSpent|,
    highestCredit := highestTransactionShown r.summary.highestCredit,
    highestDebit := highestTransactionShown r.summary.highestDebit,
    netBalance := r.summary.balance }

end ResultsView2

/-- A concrete PDF file, used to evaluate the theorems below. -/
def samplePdf : JsFile :=
  { name := "statement.pdf", type := "application/pdf" }

/-- A concrete non-PDF file. -/
def sampleTxt : JsFile :=
  { name := "notes.txt", type := "text/plain" }

/-- A concrete state of the second implementation sitting on the Kotak
view. -/
def kotakState : SA2.State :=
  { currentView := "kotak", selectedFile := none, analysisState := "upload",
    analysisResults := none, errorMessage := none }

/-- A concrete state of the first implementation sitting on the home
view. -/
def homeState1 : SA1.State :=
  { currentView := "home", selectedFile := none, analysisState := "upload",
    analysisResults := none }

/-- A concrete analysis payload of the first implementation whose summary
reports a negative totalSpent. -/
def spentNegPayload : SA1.AnalysisResult :=
  { transactions := [],
    summary :=
      { totalReceived := 1000, totalSpent := -500, balance := 500,
        creditCount := 2, debitCount := 1, totalTransactions := 3 },
    detailedCategoryBreakdown := [], pageCount := 1 }

/-- The same summary as spentNegPayload over a different transaction
list. -/
def spentNegPayloadB : SA1.AnalysisResult :=
  { transactions := [⟨"2024-01-01", -100, "coffee", "food", none⟩],
    summary :=
      { totalReceived := 1000, totalSpent := -500, balance := 500,
        creditCount := 2, debitCount := 1, totalTransactions := 3 },
    detailedCategoryBreakdown := [], pageCount := 1 }

/-- A concrete analysis payload of the shared ResultsView component. -/
def sharedPayload : Analysis.AnalysisResult :=
  { summary :=
      { totalReceived := 700, totalSpent := -200, balance := 500,
        creditCount := 1, debitCount := 1, highestCredit := some 700,
        highestDebit := some 200 },
    transactions := [], detailedCategoryBreakdown := [], pageCount := some 2 }

/-- The same summary as sharedPayload over a different transaction list. -/
def sharedPayloadB : Analysis.AnalysisResult :=
  { summary :=
      { totalReceived := 700, totalSpent := -200, balance := 500,
        creditCount := 1, debitCount := 1, highestCredit := some 700,
        highestDebit := some 200 },
    transactions := [⟨"2024-01-02", "salary", 700, "credit", none⟩],
    detailedCategoryBreakdown := [], pageCount := some 2 }

/-! ## Helper lemmas -/

/-- No string is both the upload and the results literal. -/
theorem not_upload_and_results (x : String) :
    ¬(x = "upload" ∧ x = "results") := by
  rintro ⟨h1, h2⟩
  rw [h1] at h2
  exact absurd h2 (by decide)

/-- jsOrStr keeps a nonempty string. -/
theorem jsOrStr_of_ne (s fb : String) (h : s ≠ "") : jsOrStr s fb = s := by
  unfold jsOrStr
  rw [if_neg h]

/-- jsOr with a nonempty fallback never returns the empty string. -/
theorem jsOr_ne_empty (d : Option String) (fb : String) (h : fb ≠ "") :
    jsOr d fb ≠ "" := by
  cases d with
  | none => simpa [jsOr]
  | some s =>
      unfold jsOr jsOrStr
      by_cases hs : s = "" <;> simp [hs, h]

/-- The HTTP-status fallback message is never empty. -/
theorem httpFallback_ne_empty (status : Nat) :
    ("HTTP error! status: " ++ toString status) ≠ "" := by
  intro h
  have := congrArg String.length h
  simp [String.length_append] at this
  exact absurd this.1 (by decide)

/-! ## C9 -/

/-- C9: if analyzeStatement of the first implementation runs while the
current view is neither phonepe-analysis nor kotak-analysis, the platform
discriminator sent to the backend defaults to phonepe. -/
theorem c9_platform_defaults_to_phonepe (apiUrl : Option String)
    (cv : String) (f : JsFile) (outcome : SA1.FetchOutcome)
    (h1 : cv ≠ "phonepe-analysis") (h2 : cv ≠ "kotak-analysis") :
    SA1.platformOf cv = "phonepe" ∧
    SA1.Event.fetch "POST" (SA1.analyzeUrl apiUrl)
        [("file", .file f), ("platform", .str "phonepe")]
      ∈ SA1.analyzeStatement apiUrl cv f outcome := by
  have hp : SA1.platformOf cv = "phonepe" := by
    unfold SA1.platformOf
    rw [if_neg h1, if_neg h2]
  refine ⟨hp, ?_⟩
  unfold SA1.analyzeStatement
  rw [hp]
  simp

/-- Witness for C9 at the home view. -/
theorem c9_witness :
    SA1.platformOf "home" = "phonepe" ∧
    SA1.Event.fetch "POST" (SA1.analyzeUrl none)
        [("file", .file samplePdf), ("platform", .str "phonepe")]
      ∈ SA1.analyzeStatement none "home" samplePdf (.thrown "nope") :=
  c9_platform_defaults_to_phonepe none "home" samplePdf (.thrown "nope")
    (by decide) (by decide)

/-! ## C6 -/

set_option maxHeartbeats 2000000 in
/-- C6: renderCurrentView renders the PhonePe analysis screen exactly on
phonepe-analysis, the Kotak analysis screen exactly on kotak-analysis, and
the home screen on home and on every view without an explicit case. -/
theorem c6_renderCurrentView_dispatch (v : String) :
    (SA1.renderCurrentView v = SA1.Screen.phonePeAnalysis ↔
      v = "phonepe-analysis") ∧
    (SA1.renderCurrentView v = SA1.Screen.kotakAnalysis ↔
      v = "kotak-analysis") ∧
    SA1.renderCurrentView "home" = SA1.Screen.home ∧
    (v ∉ SA1.handledViews → SA1.renderCurrentView v = SA1.Screen.home) := by
  refine ⟨?_, ?_, by decide, ?_⟩
  · unfold SA1.renderCurrentView
    split_ifs with h1 h2 h3 h4 h5 h6 h7 h8 h9 h10 <;>
      first
        | (subst v; decide)
        | exact iff_of_false (by decide) h2
  · unfold SA1.renderCurrentView
    split_ifs with h1 h2 h3 h4 h5 h6 h7 h8 h9 h10 <;>
      first
        | (subst v; decide)
        | exact iff_of_false (by decide) h3
  · intro hv
    unfold SA1.renderCurrentView
    simp only [SA1.handledViews, List.mem_cons, List.not_mem_nil, or_false] at hv
    push_neg at hv
    obtain ⟨n1, n2, n3, n4, n5, n6, n7, n8, n9, n10⟩ := hv
    rw [if_neg n1, if_neg n2, if_neg n3, if_neg n4, if_neg n5, if_neg n6,
      if_neg n7, if_neg n8, if_neg n9, if_neg n10]

/-- Witness for C6 at the unhandled view value profile. -/
theorem c6_witness : SA1.renderCurrentView "profile" = SA1.Screen.home :=
  (c6_renderCurrentView_dispatch "profile").2.2.2 (by decide)

/-! ## C8 -/

/-- C8: handleFileSelect and handleDrop of the first implementation
forward the file to analyzeStatement exactly when one is present with the
application/pdf MIME type; otherwise they perform no fetch and set the
analysis state to upload. -/
theorem c8_pdf_gate (apiUrl : Option String) (cv : String) (s : SA1.State)
    (file : Option JsFile) (outcome : SA1.FetchOutcome) :
    (∀ f, file = some f → f.type = "application/pdf" →
      SA1.handleFileSelect apiUrl cv file outcome =
        .setSelectedFile (some f) :: SA1.analyzeStatement apiUrl cv f outcome ∧
      SA1.handleDrop apiUrl cv file outcome =
        .setSelectedFile (some f) :: SA1.analyzeStatement apiUrl cv f outcome) ∧
    ((∀ f, file = some f → f.type ≠ "application/pdf") →
      SA1.fetchCount (SA1.handleFileSelect apiUrl cv file outcome) = 0 ∧
      SA1.fetchCount (SA1.handleDrop apiUrl cv file outcome) = 0 ∧
      (SA1.runEvents s
        (SA1.handleFileSelect apiUrl cv file outcome)).analysisState = "upload" ∧
      (SA1.runEvents s
        (SA1.handleDrop apiUrl cv file outcome)).analysisState = "upload") := by
  constructor
  · rintro f rfl hf
    simp [SA1.handleFileSelect, SA1.handleDrop, hf]
  · intro hnot
    cases file with
    | none =>
        simp [SA1.handleFileSelect, SA1.handleDrop, SA1.fetchCount,
          SA1.runEvents, SA1.apply]
    | some f =>
        have hf : f.type ≠ "application/pdf" := hnot f rfl
        simp [SA1.handleFileSelect, SA1.handleDrop, hf, SA1.fetchCount,
          SA1.runEvents, SA1.apply]

/-- Witness for C8: a plain-text file is rejected without a fetch. -/
theorem c8_witness :
    SA1.fetchCount
      (SA1.handleFileSelect none "home" (some sampleTxt) (.thrown "e")) = 0 ∧
    SA1.fetchCount
      (SA1.handleDrop none "home" (some sampleTxt) (.thrown "e")) = 0 ∧
    (SA1.runEvents homeState1
      (SA1.handleFileSelect none "home" (some sampleTxt)
        (.thrown "e"))).analysisState = "upload" ∧
    (SA1.runEvents homeState1
      (SA1.handleDrop none "home" (some sampleTxt)
        (.thrown "e"))).analysisState = "upload" :=
  (c8_pdf_gate none "home" homeState1 (some sampleTxt) (.thrown "e")).2
    (by intro f hf; injection hf with h; rw [← h]; decide)

/-! ## C3 -/

/-- C3: a non-OK response makes analyzeStatement surface the detail field
(or a generic fallback) as the error message, return the analysis state to
upload, and leave the stored analysis results unchanged; an OK response
stores the parsed body and sets the state to results, in both
implementations. -/
theorem c3_response_handling (apiUrl : Option String) (s2 : SA2.State)
    (f : JsFile) (bank cv : String) (status : Nat) (detail : Option String)
    (data : Analysis.AnalysisResult) (s1 : SA1.State)
    (data1 : SA1.AnalysisResult) :
    ((SA2.runEvents s2 (SA2.analyzeStatement apiUrl f bank
        (.httpError status detail))).analysisState = "upload" ∧
     (SA2.runEvents s2 (SA2.analyzeStatement apiUrl f bank
        (.httpError status detail))).analysisResults = s2.analysisResults ∧
     (SA2.runEvents s2 (SA2.analyzeStatement apiUrl f bank
        (.httpError status detail))).errorMessage =
       some (jsOr detail ("HTTP error! status: " ++ toString status))) ∧
    ((SA2.runEvents s2 (SA2.analyzeStatement apiUrl f bank
        (.ok data))).analysisState = "results" ∧
     (SA2.runEvents s2 (SA2.analyzeStatement apiUrl f bank
        (.ok data))).analysisResults = some data) ∧
    ((SA1.runEvents s1 (SA1.analyzeStatement apiUrl cv f
        (.httpError status detail))).analysisState = "upload" ∧
     (SA1.runEvents s1 (SA1.analyzeStatement apiUrl cv f
        (.httpError status detail))).analysisResults = s1.analysisResults ∧
     SA1.Event.alert
        ("Analysis failed: " ++ jsOr detail "Failed to analyze statement")
       ∈ SA1.analyzeStatement apiUrl cv f (.httpError status detail)) ∧
    ((SA1.runEvents s1 (SA1.analyzeStatement apiUrl cv f
        (.ok data1))).analysisState = "results" ∧
     (SA1.runEvents s1 (SA1.analyzeStatement apiUrl cv f
        (.ok data1))).analysisResults = some data1) := by
  have hmsg : jsOrStr (jsOr detail ("HTTP error! status: " ++ toString status))
      "An unknown error occurred during analysis." =
      jsOr detail ("HTTP error! status: " ++ toString status) :=
    jsOrStr_of_ne _ _ (jsOr_ne_empty _ _ (httpFallback_ne_empty status))
  refine ⟨⟨?_, ?_, ?_⟩, ⟨?_, ?_⟩, ⟨?_, ?_, ?_⟩, ⟨?_, ?_⟩⟩ <;>
    simp [SA2.analyzeStatement, SA2.runEvents, SA2.apply,
      SA1.analyzeStatement, SA1.runEvents, SA1.apply, hmsg]

/-! ## C5 -/

/-- fetchCount of the second implementation distributes over cons. -/
theorem fetchCount2_cons (e : SA2.Event) (es : List SA2.Event) :
    SA2.fetchCount (e :: es) =
      (match e with | .fetch _ _ _ => 1 | _ => 0) + SA2.fetchCount es := by
  cases e <;> simp [SA2.fetchCount, List.countP_cons, Nat.add_comm]

/-- fetchCount of the first implementation distributes over cons. -/
theorem fetchCount1_cons (e : SA1.Event) (es : List SA1.Event) :
    SA1.fetchCount (e :: es) =
      (match e with | .fetch _ _ _ => 1 | _ => 0) + SA1.fetchCount es := by
  cases e <;> simp [SA1.fetchCount, List.countP_cons, Nat.add_comm]

/-- analyzeStatement of the second implementation performs exactly one
fetch. -/
theorem fetchCount2_analyze (apiUrl : Option String) (f : JsFile)
    (bank : String) (outcome : SA2.FetchOutcome) :
    SA2.fetchCount (SA2.analyzeStatement apiUrl f bank outcome) = 1 := by
  cases outcome <;>
    simp [SA2.analyzeStatement, SA2.fetchCount, List.countP_cons]

/-- analyzeStatement of the first implementation performs exactly one
fetch. -/
theorem fetchCount1_analyze (apiUrl : Option String) (cv : String)
    (f : JsFile) (outcome : SA1.FetchOutcome) :
    SA1.fetchCount (SA1.analyzeStatement apiUrl cv f outcome) = 1 := by
  cases outcome <;>
    simp [SA1.analyzeStatement, SA1.fetchCount, List.countP_cons]

/-- C5: one invocation of analyzeStatement performs exactly one fetch, to
the /analyze endpoint, and the other handlers of the flow perform no fetch
of their own. -/
theorem c5_single_fetch (apiUrl : Option String) (s2 : SA2.State)
    (f : JsFile) (bank v cv : String) (outcome : SA2.FetchOutcome)
    (file : Option JsFile) (outcome1 : SA1.FetchOutcome) :
    SA2.fetchCount (SA2.analyzeStatement apiUrl f bank outcome) = 1 ∧
    SA2.Event.fetch "POST" (SA2.analyzeUrl apiUrl)
        [("file", .file f), ("bank", .str bank)]
      ∈ SA2.analyzeStatement apiUrl f bank outcome ∧
    SA2.fetchCount (SA2.opEvents apiUrl s2 (.viewChange v)) = 0 ∧
    SA2.fetchCount (SA2.opEvents apiUrl s2 .dismissError) = 0 ∧
    SA2.fetchCount (SA2.opEvents apiUrl s2 (.fileSelect file outcome)) ≤ 1 ∧
    SA2.fetchCount (SA2.opEvents apiUrl s2 (.drop file outcome)) ≤ 1 ∧
    SA1.fetchCount (SA1.analyzeStatement apiUrl cv f outcome1) = 1 ∧
    SA1.fetchCount (SA1.handleFileSelect apiUrl cv file outcome1) ≤ 1 ∧
    SA1.fetchCount (SA1.handleDrop apiUrl cv file outcome1) ≤ 1 := by
  have hsel : SA2.fetchCount (SA2.opEvents apiUrl s2 (.fileSelect file outcome)) ≤ 1 ∧
      SA2.fetchCount (SA2.opEvents apiUrl s2 (.drop file outcome)) ≤ 1 := by
    cases file with
    | none => simp [SA2.opEvents, SA2.fetchCount]
    | some g =>
        constructor <;>
        · rw [SA2.opEvents]
          by_cases h : s2.currentView = "kotak" ∨ s2.currentView = "phonepe"
          · rw [if_pos h, fetchCount2_cons, fetchCount2_analyze]
          · rw [if_neg h]
            simp [SA2.fetchCount]
  have hsel1 : SA1.fetchCount (SA1.handleFileSelect apiUrl cv file outcome1) ≤ 1 ∧
      SA1.fetchCount (SA1.handleDrop apiUrl cv file outcome1) ≤ 1 := by
    cases file with
    | none => simp [SA1.handleFileSelect, SA1.handleDrop, SA1.fetchCount]
    | some g =>
        by_cases h : g.type = "application/pdf"
        · have key : SA1.fetchCount (SA1.Event.setSelectedFile (some g) ::
              SA1.analyzeStatement apiUrl cv g outcome1) ≤ 1 := by
            rw [fetchCount1_cons, fetchCount1_analyze]
          constructor
          · simpa [SA1.handleFileSelect, h] using key
          · simpa [SA1.handleDrop, h] using key
        · constructor <;>
            simp [SA1.handleFileSelect, SA1.handleDrop, h, SA1.fetchCount]
  refine ⟨fetchCount2_analyze apiUrl f bank outcome, ?_, ?_, ?_,
    hsel.1, hsel.2, fetchCount1_analyze apiUrl cv f outcome1,
    hsel1.1, hsel1.2⟩
  · cases outcome <;> simp [SA2.analyzeStatement]
  · simp [SA2.opEvents, SA2.resetStateEvents, SA2.fetchCount]
  · simp [SA2.opEvents, SA2.fetchCount]

/-! ## C2 -/

/-- The platform discriminator of the first implementation is always
phonepe or kotak. -/
theorem platformOf_mem (cv : String) :
    SA1.platformOf cv = "phonepe" ∨ SA1.platformOf cv = "kotak" := by
  unfold SA1.platformOf
  split_ifs <;> simp

/-- Any fetch event of analyzeStatement of the first implementation is the
POST of the two-field form to the /analyze URL. -/
theorem fetch_mem_analyze1 (apiUrl : Option String) (cv : String)
    (f1 : JsFile) (outcome1 : SA1.FetchOutcome) (m u : String)
    (form : List (String × FormVal))
    (h : SA1.Event.fetch m u form ∈ SA1.analyzeStatement apiUrl cv f1 outcome1) :
    m = "POST" ∧ u = SA1.analyzeUrl apiUrl ∧
    form = [("file", FormVal.file f1),
            ("platform", FormVal.str (SA1.platformOf cv))] := by
  cases outcome1 <;>
    (simp [SA1.analyzeStatement] at h; exact ⟨h.1, h.2.1, h.2.2⟩)

/-- Any fetch event of analyzeStatement of the second implementation is
the POST of the two-field form to the /analyze URL. -/
theorem fetch_mem_analyze2 (apiUrl : Option String) (f : JsFile)
    (bank : String) (outcome : SA2.FetchOutcome) (m u : String)
    (form : List (String × FormVal))
    (h : SA2.Event.fetch m u form ∈ SA2.analyzeStatement apiUrl f bank outcome) :
    m = "POST" ∧ u = SA2.analyzeUrl apiUrl ∧
    form = [("file", FormVal.file f), ("bank", FormVal.str bank)] := by
  cases outcome <;>
    (simp [SA2.analyzeStatement] at h; exact ⟨h.1, h.2.1, h.2.2⟩)

/-- C2: every request either implementation sends is a POST to the
/analyze path of the configured backend URL whose multipart form holds
exactly the file under the key file and a discriminator (platform in the
first implementation, bank in the second) valued phonepe or kotak. -/
theorem c2_request_shape (apiUrl : Option String) (s2 : SA2.State)
    (op : SA2.Op) (m u : String) (form : List (String × FormVal)) :
    (SA2.Event.fetch m u form ∈ SA2.opEvents apiUrl s2 op →
      m = "POST" ∧ u = SA2.analyzeUrl apiUrl ∧
      ∃ f b, form = [("file", FormVal.file f), ("bank", FormVal.str b)] ∧
        (b = "phonepe" ∨ b = "kotak")) ∧
    (∀ (cv : String) (f1 : JsFile) (file : Option JsFile)
        (outcome1 : SA1.FetchOutcome),
      (SA1.Event.fetch m u form ∈ SA1.analyzeStatement apiUrl cv f1 outcome1 ∨
       SA1.Event.fetch m u form ∈ SA1.handleFileSelect apiUrl cv file outcome1 ∨
       SA1.Event.fetch m u form ∈ SA1.handleDrop apiUrl cv file outcome1) →
      m = "POST" ∧ u = SA1.analyzeUrl apiUrl ∧
      ∃ f p, form = [("file", FormVal.file f), ("platform", FormVal.str p)] ∧
        (p = "phonepe" ∨ p = "kotak")) := by
  constructor
  · intro hmem
    cases op with
    | viewChange v =>
        exact absurd hmem (by simp [SA2.opEvents, SA2.resetStateEvents])
    | dismissError => exact absurd hmem (by simp [SA2.opEvents])
    | fileSelect file outcome =>
        cases file with
        | none => exact absurd hmem (by simp [SA2.opEvents])
        | some g =>
            simp only [SA2.opEvents] at hmem
            by_cases hc : s2.currentView = "kotak" ∨ s2.currentView = "phonepe"
            · rw [if_pos hc] at hmem
              rcases List.mem_cons.mp hmem with heq | hmem2
              · exact absurd heq (by simp)
              · obtain ⟨hm, hu, hform⟩ := fetch_mem_analyze2 _ _ _ _ _ _ _ hmem2
                exact ⟨hm, hu, g, s2.currentView, hform, hc.symm⟩
            · rw [if_neg hc] at hmem
              exact absurd hmem (List.not_mem_nil _)
    | drop file outcome =>
        cases file with
        | none => exact absurd hmem (by simp [SA2.opEvents])
        | some g =>
            simp only [SA2.opEvents] at hmem
            by_cases hc : s2.currentView = "kotak" ∨ s2.currentView = "phonepe"
            · rw [if_pos hc] at hmem
              rcases List.mem_cons.mp hmem with heq | hmem2
              · exact absurd heq (by simp)
              · obtain ⟨hm, hu, hform⟩ := fetch_mem_analyze2 _ _ _ _ _ _ _ hmem2
                exact ⟨hm, hu, g, s2.currentView, hform, hc.symm⟩
            · rw [if_neg hc] at hmem
              exact absurd hmem (List.not_mem_nil _)
  · rintro cv f1 file outcome1 (h | h | h)
    · obtain ⟨hm, hu, hform⟩ := fetch_mem_analyze1 _ _ _ _ _ _ _ h
      exact ⟨hm, hu, f1, _, hform, platformOf_mem cv⟩
    · cases file with
      | none => exact absurd h (by simp [SA1.handleFileSelect])
      | some g =>
          by_cases hp : g.type = "application/pdf"
          · simp only [SA1.handleFileSelect, if_pos hp] at h
            rcases List.mem_cons.mp h with heq | h2
            · exact absurd heq (by simp)
            · obtain ⟨hm, hu, hform⟩ := fetch_mem_analyze1 _ _ _ _ _ _ _ h2
              exact ⟨hm, hu, g, _, hform, platformOf_mem cv⟩
          · exact absurd h (by simp [SA1.handleFileSelect, hp])
    · cases file with
      | none => exact absurd h (by simp [SA1.handleDrop])
      | some g =>
          by_cases hp : g.type = "application/pdf"
          · simp only [SA1.handleDrop, if_pos hp] at h
            rcases List.mem_cons.mp h with heq | h2
            · exact absurd heq (by simp)
            · obtain ⟨hm, hu, hform⟩ := fetch_mem_analyze1 _ _ _ _ _ _ _ h2
              exact ⟨hm, hu, g, _, hform, platformOf_mem cv⟩
          · exact absurd h (by simp [SA1.handleDrop, hp])

/-- Witness for C2: the Kotak file-select request has the stated shape. -/
theorem c2_witness :
    "POST" = "POST" ∧ SA2.analyzeUrl none = SA2.analyzeUrl none ∧
    ∃ f b, [("file", FormVal.file samplePdf), ("bank", FormVal.str "kotak")] =
        [("file", FormVal.file f), ("bank", FormVal.str b)] ∧
      (b = "phonepe" ∨ b = "kotak") :=
  (c2_request_shape none kotakState
    (.fileSelect (some samplePdf) (.thrown "e")) "POST" (SA2.analyzeUrl none)
    [("file", .file samplePdf), ("bank", .str "kotak")]).1
    (by simp [SA2.opEvents, SA2.analyzeStatement, kotakState])

/-! ## C4 -/

/-- Running events whose setAnalysisState payloads all lie in the three
analysis states keeps the analysis state in that set. -/
theorem analysisState_runEvents_mem (es : List SA2.Event) (s : SA2.State)
    (hs : s.analysisState = "upload" ∨ s.analysisState = "analyzing" ∨
      s.analysisState = "results")
    (hes : ∀ st, SA2.Event.setAnalysisState st ∈ es →
      st = "upload" ∨ st = "analyzing" ∨ st = "results") :
    (SA2.runEvents s es).analysisState = "upload" ∨
    (SA2.runEvents s es).analysisState = "analyzing" ∨
    (SA2.runEvents s es).analysisState = "results" := by
  induction es generalizing s with
  | nil => simpa [SA2.runEvents] using hs
  | cons e es ih =>
      have h1 : SA2.runEvents s (e :: es) = SA2.runEvents (SA2.apply s e) es :=
        rfl
      rw [h1]
      refine ih _ ?_ (fun st hst => hes st (List.mem_cons_of_mem _ hst))
      cases e with
      | setAnalysisState st =>
          simpa [SA2.apply] using hes st (List.mem_cons_self _ _)
      | setCurrentView v => simpa [SA2.apply] using hs
      | setSelectedFile f => simpa [SA2.apply] using hs
      | setAnalysisResults r => simpa [SA2.apply] using hs
      | setErrorMessage msg => simpa [SA2.apply] using hs
      | fetch m u form => simpa [SA2.apply] using hs

/-- Every setAnalysisState of analyzeStatement of the second
implementation carries one of the three analysis states. -/
theorem analyze2_analysisState_mem (apiUrl : Option String) (f : JsFile)
    (bank : String) (outcome : SA2.FetchOutcome) (st : String)
    (h : SA2.Event.setAnalysisState st ∈
      SA2.analyzeStatement apiUrl f bank outcome) :
    st = "upload" ∨ st = "analyzing" ∨ st = "results" := by
  cases outcome <;> simp [SA2.analyzeStatement] at h <;> tauto

/-- Every setAnalysisState of any handler of the second implementation
carries one of the three analysis states. -/
theorem opEvents_analysisState_mem (apiUrl : Option String) (s : SA2.State)
    (op : SA2.Op) (st : String)
    (h : SA2.Event.setAnalysisState st ∈ SA2.opEvents apiUrl s op) :
    st = "upload" ∨ st = "analyzing" ∨ st = "results" := by
  cases op with
  | viewChange v =>
      simp [SA2.opEvents, SA2.resetStateEvents] at h
      exact Or.inl h
  | dismissError => exact absurd h (by simp [SA2.opEvents])
  | fileSelect file outcome =>
      cases file with
      | none => exact absurd h (by simp [SA2.opEvents])
      | some g =>
          simp only [SA2.opEvents] at h
          by_cases hc : s.currentView = "kotak" ∨ s.currentView = "phonepe"
          · rw [if_pos hc] at h
            rcases List.mem_cons.mp h with heq | h2
            · exact absurd heq (by simp)
            · exact analyze2_analysisState_mem _ _ _ _ _ h2
          · rw [if_neg hc] at h
            exact absurd h (List.not_mem_nil _)
  | drop file outcome =>
      cases file with
      | none => exact absurd h (by simp [SA2.opEvents])
      | some g =>
          simp only [SA2.opEvents] at h
          by_cases hc : s.currentView = "kotak" ∨ s.currentView = "phonepe"
          · rw [if_pos hc] at h
            rcases List.mem_cons.mp h with heq | h2
            · exact absurd heq (by simp)
            · exact analyze2_analysisState_mem _ _ _ _ _ h2
          · rw [if_neg hc] at h
            exact absurd h (List.not_mem_nil _)

/-- C4: at every reachable point of the second implementation, the
analysis state is upload, analyzing, or results. -/
theorem c4_three_states (apiUrl : Option String) (s : SA2.State)
    (h : SA2.Reachable apiUrl s) :
    s.analysisState = "upload" ∨ s.analysisState = "analyzing" ∨
    s.analysisState = "results" := by
  induction h with
  | init => exact Or.inl rfl
  | step s0 op n hr ih =>
      exact analysisState_runEvents_mem _ _ ih
        (fun st hst => opEvents_analysisState_mem apiUrl s0 op st
          (List.take_subset _ _ hst))

/-- Witness for C4 at the initial state. -/
theorem c4_witness :
    SA2.init.analysisState = "upload" ∨
    SA2.init.analysisState = "analyzing" ∨
    SA2.init.analysisState = "results" :=
  c4_three_states none SA2.init SA2.Reachable.init

/-! ## C10 -/

/-- analyzeStatement of the second implementation never changes the
current view. -/
theorem analyze2_no_setCurrentView (apiUrl : Option String) (f : JsFile)
    (bank : String) (outcome : SA2.FetchOutcome) (w : String)
    (h : SA2.Event.setCurrentView w ∈
      SA2.analyzeStatement apiUrl f bank outcome) : False := by
  cases outcome <;> simp [SA2.analyzeStatement] at h

/-- Running events without a setCurrentView leaves the current view
unchanged. -/
theorem currentView_runEvents (es : List SA2.Event) (s : SA2.State)
    (h : ∀ v, SA2.Event.setCurrentView v ∉ es) :
    (SA2.runEvents s es).currentView = s.currentView := by
  induction es generalizing s with
  | nil => rfl
  | cons e es ih =>
      have h1 : SA2.runEvents s (e :: es) = SA2.runEvents (SA2.apply s e) es :=
        rfl
      rw [h1]
      have h2 : ∀ v, SA2.Event.setCurrentView v ∉ es :=
        fun v hv => h v (List.mem_cons_of_mem _ hv)
      cases e with
      | setCurrentView v => exact absurd (List.mem_cons_self _ _) (h v)
      | setSelectedFile f => exact ih _ h2
      | setAnalysisState st => exact ih _ h2
      | setAnalysisResults r => exact ih _ h2
      | setErrorMessage msg => exact ih _ h2
      | fetch m u form => exact ih _ h2

/-- C10: handleViewChange resets the file, analysis state, results and
error message while entering the requested view, and no other handler of
the second implementation changes the current view. -/
theorem c10_view_change_resets (apiUrl : Option String) (s : SA2.State)
    (v : String) :
    ((SA2.runEvents s (SA2.opEvents apiUrl s (.viewChange v))).currentView = v ∧
     (SA2.runEvents s (SA2.opEvents apiUrl s (.viewChange v))).selectedFile = none ∧
     (SA2.runEvents s (SA2.opEvents apiUrl s (.viewChange v))).analysisState = "upload" ∧
     (SA2.runEvents s (SA2.opEvents apiUrl s (.viewChange v))).analysisResults = none ∧
     (SA2.runEvents s (SA2.opEvents apiUrl s (.viewChange v))).errorMessage = none) ∧
    (∀ op : SA2.Op, (∀ w, op ≠ SA2.Op.viewChange w) →
      (SA2.runEvents s (SA2.opEvents apiUrl s op)).currentView =
        s.currentView) := by
  constructor
  · exact ⟨rfl, rfl, rfl, rfl, rfl⟩
  · intro op hop
    refine currentView_runEvents _ _ (fun w hw => ?_)
    cases op with
    | viewChange w0 => exact hop w0 rfl
    | dismissError => simp [SA2.opEvents] at hw
    | fileSelect file outcome =>
        cases file with
        | none => simp [SA2.opEvents] at hw
        | some g =>
            simp only [SA2.opEvents] at hw
            by_cases hc : s.currentView = "kotak" ∨ s.currentView = "phonepe"
            · rw [if_pos hc] at hw
              rcases List.mem_cons.mp hw with heq | h2
              · exact absurd heq (by simp)
              · exact analyze2_no_setCurrentView _ _ _ _ _ h2
            · rw [if_neg hc] at hw
              exact absurd hw (List.not_mem_nil _)
    | drop file outcome =>
        cases file with
        | none => simp [SA2.opEvents] at hw
        | some g =>
            simp only [SA2.opEvents] at hw
            by_cases hc : s.currentView = "kotak" ∨ s.currentView = "phonepe"
            · rw [if_pos hc] at hw
              rcases List.mem_cons.mp hw with heq | h2
              · exact absurd heq (by simp)
              · exact analyze2_no_setCurrentView _ _ _ _ _ h2
            · rw [if_neg hc] at hw
              exact absurd hw (List.not_mem_nil _)

/-- Witness for C10: dismissing the error keeps the Kotak view. -/
theorem c10_witness :
    (SA2.runEvents kotakState
      (SA2.opEvents none kotakState SA2.Op.dismissError)).currentView =
      kotakState.currentView :=
  (c10_view_change_resets none kotakState "home").2 SA2.Op.dismissError
    (fun _ h => SA2.Op.noConfusion h)

/-! ## C1 -/

/-- No handler run of the second implementation ever steps the analysis
state directly from upload to results. -/
theorem chain2_op (apiUrl : Option String) (s : SA2.State) (op : SA2.Op) :
    List.Chain' (fun a b => ¬(a.analysisState = "upload" ∧
      b.analysisState = "results"))
      (SA2.microStates s (SA2.opEvents apiUrl s op)) := by
  cases op with
  | viewChange v =>
      simp [SA2.opEvents, SA2.resetStateEvents, SA2.microStates, List.scanl,
        SA2.apply, List.chain'_cons, List.chain'_singleton]
      try (intro h1 h2; rw [h1] at h2; exact absurd h2 (by decide))
  | dismissError =>
      simp [SA2.opEvents, SA2.microStates, List.scanl, SA2.apply,
        List.chain'_cons, List.chain'_singleton]
      try (intro h1 h2; rw [h1] at h2; exact absurd h2 (by decide))
  | fileSelect file outcome =>
      cases file with
      | none =>
          simp [SA2.opEvents, SA2.microStates, List.scanl,
            List.chain'_singleton]
      | some g =>
          simp only [SA2.opEvents]
          by_cases hc : s.currentView = "kotak" ∨ s.currentView = "phonepe"
          · rw [if_pos hc]
            cases outcome <;>
              (simp [SA2.analyzeStatement, SA2.microStates, List.scanl,
                 SA2.apply, List.chain'_cons, List.chain'_singleton];
               try (intro h1 h2; rw [h1] at h2; exact absurd h2 (by decide)))
          · rw [if_neg hc]
            simp [SA2.microStates, List.scanl, List.chain'_singleton]
  | drop file outcome =>
      cases file with
      | none =>
          simp [SA2.opEvents, SA2.microStates, List.scanl,
            List.chain'_singleton]
      | some g =>
          simp only [SA2.opEvents]
          by_cases hc : s.currentView = "kotak" ∨ s.currentView = "phonepe"
          · rw [if_pos hc]
            cases outcome <;>
              (simp [SA2.analyzeStatement, SA2.microStates, List.scanl,
                 SA2.apply, List.chain'_cons, List.chain'_singleton];
               try (intro h1 h2; rw [h1] at h2; exact absurd h2 (by decide)))
          · rw [if_neg hc]
            simp [SA2.microStates, List.scanl, List.chain'_singleton]

/-- analyzeStatement of the first implementation never steps the analysis
state directly from upload to results. -/
theorem chain1_analyze (apiUrl : Option String) (cv : String) (f : JsFile)
    (outcome1 : SA1.FetchOutcome) (s : SA1.State) :
    List.Chain' (fun a b => ¬(a.analysisState = "upload" ∧
      b.analysisState = "results"))
      (SA1.microStates s (SA1.analyzeStatement apiUrl cv f outcome1)) := by
  cases outcome1 <;>
    simp [SA1.analyzeStatement, SA1.microStates, List.scanl, SA1.apply,
      List.chain'_cons, List.chain'_singleton]

/-- handleFileSelect of the first implementation never steps the analysis
state directly from upload to results. -/
theorem chain1_handleFileSelect (apiUrl : Option String) (cv : String)
    (file : Option JsFile) (outcome1 : SA1.FetchOutcome) (s : SA1.State) :
    List.Chain' (fun a b => ¬(a.analysisState = "upload" ∧
      b.analysisState = "results"))
      (SA1.microStates s (SA1.handleFileSelect apiUrl cv file outcome1)) := by
  cases file with
  | none =>
      simp [SA1.handleFileSelect, SA1.microStates, List.scanl, SA1.apply,
        List.chain'_cons, List.chain'_singleton]
      try (intro h1 h2; rw [h1] at h2; exact absurd h2 (by decide))
  | some g =>
      by_cases hp : g.type = "application/pdf"
      · cases outcome1 <;>
          (simp [SA1.handleFileSelect, hp, SA1.analyzeStatement,
             SA1.microStates, List.scanl, SA1.apply, List.chain'_cons,
             List.chain'_singleton];
           try (intro h1 h2; rw [h1] at h2; exact absurd h2 (by decide)))
      · simp [SA1.handleFileSelect, hp, SA1.microStates, List.scanl,
          SA1.apply, List.chain'_cons, List.chain'_singleton]
        try (intro h1 h2; rw [h1] at h2; exact absurd h2 (by decide))

/-- handleDrop of the first implementation never steps the analysis state
directly from upload to results. -/
theorem chain1_handleDrop (apiUrl : Option String) (cv : String)
    (file : Option JsFile) (outcome1 : SA1.FetchOutcome) (s : SA1.State) :
    List.Chain' (fun a b => ¬(a.analysisState = "upload" ∧
      b.analysisState = "results"))
      (SA1.microStates s (SA1.handleDrop apiUrl cv file outcome1)) := by
  cases file with
  | none =>
      simp [SA1.handleDrop, SA1.microStates, List.scanl, SA1.apply,
        List.chain'_cons, List.chain'_singleton]
      try (intro h1 h2; rw [h1] at h2; exact absurd h2 (by decide))
  | some g =>
      by_cases hp : g.type = "application/pdf"
      · cases outcome1 <;>
          (simp [SA1.handleDrop, hp, SA1.analyzeStatement,
             SA1.microStates, List.scanl, SA1.apply, List.chain'_cons,
             List.chain'_singleton];
           try (intro h1 h2; rw [h1] at h2; exact absurd h2 (by decide)))
      · simp [SA1.handleDrop, hp, SA1.microStates, List.scanl,
          SA1.apply, List.chain'_cons, List.chain'_singleton]
        try (intro h1 h2; rw [h1] at h2; exact absurd h2 (by decide))

/-- C1: every analyzeStatement invocation first sets the analysis state to
analyzing, sets it to results only on an OK response, and no handler run
of either implementation ever steps the analysis state directly from
upload to results. -/
theorem c1_flow_sequencing (apiUrl : Option String) (f : JsFile)
    (bank cv : String) (outcome : SA2.FetchOutcome)
    (outcome1 : SA1.FetchOutcome) (s2 : SA2.State) (op : SA2.Op)
    (s1 : SA1.State) (file : Option JsFile) :
    (SA2.analyzeStatement apiUrl f bank outcome).head? =
      some (.setAnalysisState "analyzing") ∧
    (SA1.analyzeStatement apiUrl cv f outcome1).head? =
      some (.setAnalysisState "analyzing") ∧
    (SA2.Event.setAnalysisState "results" ∈
        SA2.analyzeStatement apiUrl f bank outcome ↔
      ∃ data, outcome = SA2.FetchOutcome.ok data) ∧
    (SA1.Event.setAnalysisState "results" ∈
        SA1.analyzeStatement apiUrl cv f outcome1 ↔
      ∃ data, outcome1 = SA1.FetchOutcome.ok data) ∧
    List.Chain' (fun a b => ¬(a.analysisState = "upload" ∧
        b.analysisState = "results"))
      (SA2.microStates s2 (SA2.opEvents apiUrl s2 op)) ∧
    List.Chain' (fun a b => ¬(a.analysisState = "upload" ∧
        b.analysisState = "results"))
      (SA1.microStates s1 (SA1.analyzeStatement apiUrl cv f outcome1)) ∧
    List.Chain' (fun a b => ¬(a.analysisState = "upload" ∧
        b.analysisState = "results"))
      (SA1.microStates s1 (SA1.handleFileSelect apiUrl cv file outcome1)) ∧
    List.Chain' (fun a b => ¬(a.analysisState = "upload" ∧
        b.analysisState = "results"))
      (SA1.microStates s1 (SA1.handleDrop apiUrl cv file outcome1)) := by
  refine ⟨?_, ?_, ?_, ?_, chain2_op apiUrl s2 op,
    chain1_analyze apiUrl cv f outcome1 s1,
    chain1_handleFileSelect apiUrl cv file outcome1 s1,
    chain1_handleDrop apiUrl cv file outcome1 s1⟩
  · cases outcome <;> rfl
  · cases outcome1 <;> rfl
  · cases outcome <;> simp [SA2.analyzeStatement]
  · cases outcome1 <;> simp [SA1.analyzeStatement]

/-! ## C7 -/

/-- Counterexample to C7 as stated: on a payload whose summary reports a
negative totalSpent, the ResultsView of the first implementation displays
its absolute value, not the payload value itself. -/
theorem c7_counterexample :
    (SA1.resultsViewSummary spentNegPayload).drAmount ≠
      spentNegPayload.summary.totalSpent := by
  decide

/-- C7 amended: both results screens take the displayed summary totals
(received, spent, balance, credit count, debit count) from the summary
object of the payload alone, the amounts rendered through an absolute
value appearing as such, and never recompute them from the transaction
list: two payloads with equal summaries display equal totals whatever
their transactions. -/
theorem c7_summary_from_payload (r r' : SA1.AnalysisResult)
    (q q' : Analysis.AnalysisResult) :
    SA1.resultsViewSummary r =
      { totalCRDR := r.summary.balance, crAmount := r.summary.totalReceived,
        crCount := r.summary.creditCount, drAmount := |r.summary.totalSpent|,
        drCount := r.summary.debitCount,
        totalTransactions := r.summary.totalTransactions } ∧
    (r.summary = r'.summary →
      SA1.resultsViewSummary r = SA1.resultsViewSummary r') ∧
    ResultsView2.resultsViewSummary q =
      { moneyInCount := q.summary.creditCount,
        moneyInAmount := |q.summary.totalReceived|,
        moneyOutCount := q.summary.debitCount,
        moneyOutAmount := |q.summary.totalSpent|,
        highestCredit :=
          ResultsView2.highestTransactionShown q.summary.highestCredit,
        highestDebit :=
          ResultsView2.highestTransactionShown q.summary.highestDebit,
        netBalance := q.summary.balance } ∧
    (q.summary = q'.summary →
      ResultsView2.resultsViewSummary q = ResultsView2.resultsViewSummary q') := by
  refine ⟨rfl, ?_, rfl, ?_⟩
  · intro h
    simp [SA1.resultsViewSummary, h]
  · intro h
    simp [ResultsView2.resultsViewSummary, h]

/-- Witness for the amended C7: payloads with equal summaries but
different transaction lists display the same totals. -/
theorem c7_witness :
    SA1.resultsViewSummary spentNegPayload =
      SA1.resultsViewSummary spentNegPayloadB ∧
    ResultsView2.resultsViewSummary sharedPayload =
      ResultsView2.resultsViewSummary sharedPayloadB :=
  ⟨(c7_summary_from_payload spentNegPayload spentNegPayloadB
      sharedPayload sharedPayloadB).2.1 rfl,
   (c7_summary_from_payload spentNegPayload spentNegPayloadB
      sharedPayload sharedPayloadB).2.2.2 rfl⟩
